import Mathlib

/-!
Shallow embedding of `main.py` from the klikvoorkamers-notifier repository.

The program is sequential request/response glue: each network request either
returns a parsed JSON payload or raises `requests.exceptions.RequestException`.
We model every request's outcome as an `Except String _` value supplied by an
environment record, and we record the side effects of a run (network requests
issued, log lines emitted, Telegram messages sent) as an explicit event trace.
Python's mutable `set` of known listing IDs becomes a `Finset String` threaded
through the functions; in-place mutation (`known_listings.add`) is reflected in
the fact that even the exception-handling return paths of
`check_for_new_listings` return the already-updated set.
-/

namespace KvK

/-- A listing record as consumed by the program: only the fields the code
reads (`id`, `urlKey`, `totalRent`) are modelled. -/
structure Listing where
  id : String
  urlKey : String
  totalRent : Nat
deriving DecidableEq, Repr

/-- The `action`/`url` pair found at `response.json()["result"]["reactionData"]`
in the listing-detail response.  The `url` field's query string is only used to
build the reaction POST payload, which no property here inspects. -/
structure ReactionData where
  action : String
  url : String
deriving DecidableEq, Repr

/-- Outcome of processing one listing in `apply_for_new_listing`, as the
specification's Applier names the branches of the code: the
`success == true` branch is Applied, the `success == false` branch and every
caught `RequestException` are Failed, and the `action != "add"` branch is
AlreadyApplied. -/
inductive Outcome
  | Applied
  | AlreadyApplied
  | Failed
deriving DecidableEq, Repr

/-- Observable events of a run: one constructor per network request the code
can issue, one per Telegram send attempt, and one per log level used. -/
inductive Event
  | reqWarmup
  | reqListingsApi
  | reqLoginConfig
  | reqLogin
  | reqDetail (id : String)
  | reqReactionConfig
  | reqReact (id : String)
  | notifySend (chatId : String) (msg : String)
  | logInfo (msg : String)
  | logWarning (msg : String)
  | logError (msg : String)
deriving DecidableEq, Repr

/-- Whether an event is a network (HTTP) request. -/
def Event.isNetReq : Event → Bool
  | reqWarmup => true
  | reqListingsApi => true
  | reqLoginConfig => true
  | reqLogin => true
  | reqDetail _ => true
  | reqReactionConfig => true
  | reqReact _ => true
  | _ => false

/-- The chat-id/message pair of a Telegram send attempt, if the event is one. -/
def Event.sendOf : Event → Option (String × String)
  | notifySend c m => some (c, m)
  | _ => none

/-- `LISTINGS_URL` constant from the source. -/
def LISTINGS_URL : String :=
  "https://www.klikvoorkamers.nl/en/offerings/now-for-rent/rooms/studios"

/-- The detail URL built in `send_telegram_notification`:
`f'{LISTINGS_URL}/details/{new_listing["urlKey"]}'`. -/
def detailUrl (l : Listing) : String :=
  LISTINGS_URL ++ "/details/" ++ l.urlKey

/-- The message text built in `send_telegram_notification`. -/
def message (l : Listing) : String :=
  "New listing available at " ++ detailUrl l ++ "\n" ++
    "ID: " ++ l.id ++ "\n" ++
    "Price: " ++ toString l.totalRent

/-- `send_telegram_notification`: one send attempt per chat id, in order; a
`TelegramError` on one send (modelled by `tg chatId = .error e`) is logged and
does not stop the remaining sends.  Returns the event trace. -/
def send_telegram_notification (tg : String → Except String Unit)
    (new_listing : Listing) (chat_ids : List String) : List Event :=
  chat_ids.foldr
    (fun chat_id rest =>
      Event.notifySend chat_id (message new_listing) ::
        (match tg chat_id with
          | .ok _ =>
              Event.logInfo ("Notification sent for listing ID: " ++ new_listing.id)
          | .error e =>
              Event.logError ("Error sending notification: " ++ e)) :: rest)
    []

/-- Environment for one call of `apply_for_new_listing`: the outcomes of the
three requests it can issue (listing detail POST, reaction-configuration GET,
reaction POST).  `react` is the `success` boolean of the reaction response. -/
structure ApplyEnv where
  detail : Except String ReactionData
  reactionHash : Except String String
  react : Except String Bool
deriving Repr

/-- `apply_for_new_listing`: issues the detail request; on `action == "add"`
issues the reaction-configuration and reaction requests and reads `success`;
any `RequestException` at any step is caught, logged, and ends the call.
(The reaction payload assembled from the detail response's `url` query string
is not modelled: no property reads it.)  Returns the outcome of the branch
taken together with the event trace. -/
def apply_for_new_listing (env : ApplyEnv) (listing : Listing) :
    Outcome × List Event :=
  let listing_id := listing.id
  match env.detail with
  | .error e =>
      (.Failed, [.reqDetail listing_id,
        .logError ("Error applying for listing " ++ listing_id ++ ": " ++ e)])
  | .ok reaction_data =>
      if reaction_data.action = "add" then
        match env.reactionHash with
        | .error e =>
            (.Failed, [.reqDetail listing_id, .reqReactionConfig,
              .logError ("Error applying for listing " ++ listing_id ++ ": " ++ e)])
        | .ok _hash =>
            match env.react with
            | .error e =>
                (.Failed, [.reqDetail listing_id, .reqReactionConfig,
                  .reqReact listing_id,
                  .logError ("Error applying for listing " ++ listing_id ++ ": " ++ e)])
            | .ok success =>
                if success then
                  (.Applied, [.reqDetail listing_id, .reqReactionConfig,
                    .reqReact listing_id,
                    .logInfo ("Successfully applied: " ++ listing_id)])
                else
                  (.Failed, [.reqDetail listing_id, .reqReactionConfig,
                    .reqReact listing_id,
                    .logWarning ("Something went wrong: " ++ listing_id)])
      else
        (.AlreadyApplied, [.reqDetail listing_id,
          .logInfo ("Already applied? " ++ listing_id)])

/-- One step of the diff loop in `check_for_new_listings` (lines 162-168):
the accumulator is the pair (`listings_to_apply`, `known_listings`). -/
def diffStepF (acc : List Listing × Finset String) (l : Listing) :
    List Listing × Finset String :=
  if l.id ∈ acc.2 then acc else (acc.1 ++ [l], insert l.id acc.2)

/-- The diff loop of `check_for_new_listings`: walks the fetched listings in
order, appending unseen ones to `listings_to_apply` and adding their IDs to
the (mutable, hence returned) known set. -/
def diffStep (known_listings : Finset String) (fetched : List Listing) :
    List Listing × Finset String :=
  fetched.foldl diffStepF ([], known_listings)

/-- Environment for one call of `check_for_new_listings`: outcomes of the
cycle-level requests, plus the per-listing apply environment (indexed by
listing id) and the Telegram send outcomes.  `listings` is the parsed
`response.json()["result"]` array; `login` is the `loggedIn` boolean. -/
structure CycleEnv where
  warmup : Except String Unit
  listings : Except String (List Listing)
  loginConfig : Except String String
  login : Except String Bool
  applyEnv : String → ApplyEnv
  tg : String → Except String Unit

/-- Result of one call of `check_for_new_listings`: the returned known-ID set,
the `listings_to_apply` list the diff produced, the per-listing outcomes of
the apply loop (empty whenever the loop was not reached), and the full event
trace. -/
structure CycleResult where
  known : Finset String
  newListings : List Listing
  outcomes : List (String × Outcome)
  events : List Event

/-- Processing of one new listing inside the apply loop:
`apply_for_new_listing` followed by `send_telegram_notification`. -/
def processListing (env : CycleEnv) (tg_chat_ids : List String) (l : Listing) :
    (String × Outcome) × List Event :=
  let r := apply_for_new_listing (env.applyEnv l.id) l
  ((l.id, r.1), r.2 ++ send_telegram_notification env.tg l tg_chat_ids)

/-- `check_for_new_listings`: warm-up GET, listings GET, diff loop, and — only
when new listings were found — login-configuration GET, login POST, and the
apply/notify loop.  A `RequestException` from any of the four cycle-level
requests is caught by the surrounding handler, which logs it and falls through
to `return known_listings`; because the diff loop mutates the set in place,
the post-diff abort paths return the already-updated set. -/
def check_for_new_listings (env : CycleEnv) (known_listings : Finset String)
    (chat_ids : List String) : CycleResult :=
  match env.warmup with
  | .error e =>
      ⟨known_listings, [], [],
        [.reqWarmup, .logError ("Error checking for new listings: " ++ e)]⟩
  | .ok _ =>
      match env.listings with
      | .error e =>
          ⟨known_listings, [], [],
            [.reqWarmup, .reqListingsApi,
              .logError ("Error checking for new listings: " ++ e)]⟩
      | .ok listings_data =>
          let d := diffStep known_listings listings_data
          let listings_to_apply := d.1
          let known' := d.2
          let base : List Event :=
            [.reqWarmup, .reqListingsApi] ++
              listings_to_apply.map (fun l => .logInfo ("New listing found: " ++ l.id))
          if listings_to_apply.length > 0 then
            match env.loginConfig with
            | .error e =>
                ⟨known', listings_to_apply, [],
                  base ++ [.reqLoginConfig,
                    .logError ("Error checking for new listings: " ++ e)]⟩
            | .ok _hash =>
                match env.login with
                | .error e =>
                    ⟨known', listings_to_apply, [],
                      base ++ [.reqLoginConfig, .reqLogin,
                        .logError ("Error checking for new listings: " ++ e)]⟩
                | .ok loggedIn =>
                    if !loggedIn then
                      ⟨known', listings_to_apply, [],
                        base ++ [.reqLoginConfig, .reqLogin,
                          .logWarning "Could not login"]⟩
                    else
                      let results := listings_to_apply.map (processListing env chat_ids)
                      ⟨known', listings_to_apply, results.map (·.1),
                        base ++ [.reqLoginConfig, .reqLogin] ++
                          (results.map (·.2)).flatten⟩
          else
            ⟨known', listings_to_apply, [], base⟩

/-! ### Helper lemmas about the diff loop and the notifier -/

/-- The known-set component of the diff fold is the input set united with the
IDs of the walked listings, whatever the accumulator. -/
theorem diff_fold_snd (L : List Listing) (acc : List Listing) (S : Finset String) :
    (L.foldl diffStepF (acc, S)).2 = S ∪ (L.map Listing.id).toFinset := by
  induction L generalizing acc S with
  | nil => simp
  | cons l L ih =>
      simp only [List.foldl_cons, diffStepF, List.map_cons, List.toFinset_cons]
      split
      · rename_i hmem
        rw [ih]
        ext a
        simp only [Finset.mem_union, Finset.mem_insert, List.mem_toFinset]
        constructor
        · rintro (h | h)
          · exact Or.inl h
          · exact Or.inr (Or.inr h)
        · rintro (h | h | h)
          · exact Or.inl h
          · exact Or.inl (h ▸ hmem)
          · exact Or.inr h
      · rw [ih]
        ext a
        simp only [Finset.mem_union, Finset.mem_insert, List.mem_toFinset]
        tauto

/-- When every walked listing's ID is already in the set, the diff fold is the
identity: nothing is appended and the set is unchanged. -/
theorem diff_fold_skip (L : List Listing) (acc : List Listing) (S : Finset String)
    (h : ∀ l ∈ L, l.id ∈ S) : L.foldl diffStepF (acc, S) = (acc, S) := by
  induction L generalizing acc with
  | nil => rfl
  | cons l L ih =>
      simp only [List.foldl_cons, diffStepF, h l (List.mem_cons_self l L), if_pos]
      exact ih acc (fun x hx => h x (List.mem_cons_of_mem l hx))

/-- When the walked listings have pairwise-distinct IDs, the appended listings
are exactly those whose ID is absent from the input set, in order. -/
theorem diff_fold_fst (L : List Listing) (acc : List Listing) (S : Finset String)
    (h : (L.map Listing.id).Nodup) :
    (L.foldl diffStepF (acc, S)).1 = acc ++ L.filter (fun l => decide (l.id ∉ S)) := by
  induction L generalizing acc S with
  | nil => simp
  | cons l L ih =>
      simp only [List.map_cons, List.nodup_cons] at h
      obtain ⟨hl, hL⟩ := h
      simp only [List.foldl_cons, diffStepF, List.filter_cons]
      by_cases hmem : l.id ∈ S
      · rw [if_pos hmem, ih acc S hL]
        simp [hmem]
      · rw [if_neg hmem, ih (acc ++ [l]) (insert l.id S) hL]
        have hfilter : L.filter (fun x => decide (x.id ∉ insert l.id S)) =
            L.filter (fun x => decide (x.id ∉ S)) := by
          apply List.filter_congr
          intro x hx
          have hne : x.id ≠ l.id := by
            intro hEq
            exact hl (hEq ▸ List.mem_map_of_mem Listing.id hx)
          simp [Finset.mem_insert, hne]
        rw [hfilter]
        simp [hmem]

/-- Every ID of a walked listing ends up in the known set produced by `diffStep`. -/
theorem diff_mem_snd (K : Finset String) (L : List Listing) (l : Listing)
    (h : l ∈ L) : l.id ∈ (diffStep K L).2 := by
  rw [diffStep, diff_fold_snd]
  exact Finset.mem_union_right _ (List.mem_toFinset.mpr (List.mem_map_of_mem Listing.id h))

/-- The notifier attempts one send per listed chat id. -/
theorem mem_send_telegram (tg : String → Except String Unit) (l : Listing)
    (cs : List String) (c : String) (h : c ∈ cs) :
    Event.notifySend c (message l) ∈ send_telegram_notification tg l cs := by
  induction cs with
  | nil => cases h
  | cons c' cs ih =>
      simp only [send_telegram_notification, List.foldr_cons]
      rcases List.mem_cons.mp h with h | h
      · exact h ▸ List.mem_cons_self _ _
      · exact List.mem_cons_of_mem _ (List.mem_cons_of_mem _ (ih h))

/-- The send attempts of a notifier run are exactly one message per chat id,
in order, each carrying the listing's message text. -/
theorem sends_send_telegram (tg : String → Except String Unit) (l : Listing)
    (cs : List String) :
    (send_telegram_notification tg l cs).filterMap Event.sendOf =
      cs.map (fun c => (c, message l)) := by
  induction cs with
  | nil => rfl
  | cons c cs ih =>
      simp only [send_telegram_notification, List.foldr_cons, List.filterMap_cons]
      cases htg : tg c with
      | ok u =>
          simpa [Event.sendOf, htg, send_telegram_notification] using ih
      | error e =>
          simpa [Event.sendOf, htg, send_telegram_notification] using ih

/-- `apply_for_new_listing` raises `e` when one of its three requests yields a
`RequestException` `e` on the branch the code actually takes. -/
def ApplyEnv.raises (env : ApplyEnv) (e : String) : Prop :=
  env.detail = .error e ∨
    ∃ rd, env.detail = .ok rd ∧ rd.action = "add" ∧
      (env.reactionHash = .error e ∨
        ∃ h, env.reactionHash = .ok h ∧ env.react = .error e)

/-- A request-level error at any step of `apply_for_new_listing` ends the call
with outcome Failed and the error logged. -/
theorem apply_raises_failed (env : ApplyEnv) (l : Listing) (e : String)
    (h : env.raises e) :
    (apply_for_new_listing env l).1 = Outcome.Failed ∧
      Event.logError ("Error applying for listing " ++ l.id ++ ": " ++ e) ∈
        (apply_for_new_listing env l).2 := by
  rcases h with h | ⟨rd, hd, ha, h | ⟨hsh, hh, hr⟩⟩
  · simp [apply_for_new_listing, h]
  · simp [apply_for_new_listing, hd, ha, h]
  · simp [apply_for_new_listing, hd, ha, hh, hr]

/-! ### Path characterizations of `check_for_new_listings` -/

/-- Warm-up request fails: the cycle aborts with the set unchanged. -/
theorem check_eq_warmup_err (env : CycleEnv) (K : Finset String)
    (cs : List String) (e : String) (hw : env.warmup = .error e) :
    check_for_new_listings env K cs =
      ⟨K, [], [], [.reqWarmup, .logError ("Error checking for new listings: " ++ e)]⟩ := by
  simp [check_for_new_listings, hw]

/-- Listings API request fails: the cycle aborts with the set unchanged. -/
theorem check_eq_listings_err (env : CycleEnv) (K : Finset String)
    (cs : List String) (e : String) (hw : env.warmup = .ok ())
    (hl : env.listings = .error e) :
    check_for_new_listings env K cs =
      ⟨K, [], [],
        [.reqWarmup, .reqListingsApi,
          .logError ("Error checking for new listings: " ++ e)]⟩ := by
  simp [check_for_new_listings, hw, hl]

/-- No new listings: the login round-trip and the apply loop are skipped. -/
theorem check_eq_no_new (env : CycleEnv) (K : Finset String) (cs : List String)
    (L : List Listing) (hw : env.warmup = .ok ()) (hl : env.listings = .ok L)
    (hempty : (diffStep K L).1 = []) :
    check_for_new_listings env K cs =
      ⟨(diffStep K L).2, [], [], [.reqWarmup, .reqListingsApi]⟩ := by
  simp [check_for_new_listings, hw, hl, diffStep] at hempty ⊢
  simp [hempty]

/-- The diff-loop log events preceding the login requests. -/
def baseEvents (K : Finset String) (L : List Listing) : List Event :=
  [.reqWarmup, .reqListingsApi] ++
    (diffStep K L).1.map (fun l => .logInfo ("New listing found: " ++ l.id))

/-- Login-configuration request fails after new listings were found: the cycle
aborts, but the returned set is the already-updated one. -/
theorem check_eq_loginconfig_err (env : CycleEnv) (K : Finset String)
    (cs : List String) (L : List Listing) (e : String)
    (hw : env.warmup = .ok ()) (hl : env.listings = .ok L)
    (hne : (diffStep K L).1 ≠ []) (hc : env.loginConfig = .error e) :
    check_for_new_listings env K cs =
      ⟨(diffStep K L).2, (diffStep K L).1, [],
        baseEvents K L ++
          [.reqLoginConfig, .logError ("Error checking for new listings: " ++ e)]⟩ := by
  simp [diffStep] at hne
  simp [check_for_new_listings, hw, hl, hc, baseEvents, diffStep,
    List.length_pos.mpr hne]

/-- Login POST fails after new listings were found: like the previous case,
with one more request on the trace. -/
theorem check_eq_login_err (env : CycleEnv) (K : Finset String)
    (cs : List String) (L : List Listing) (hsh e : String)
    (hw : env.warmup = .ok ()) (hl : env.listings = .ok L)
    (hne : (diffStep K L).1 ≠ []) (hc : env.loginConfig = .ok hsh)
    (hg : env.login = .error e) :
    check_for_new_listings env K cs =
      ⟨(diffStep K L).2, (diffStep K L).1, [],
        baseEvents K L ++
          [.reqLoginConfig, .reqLogin,
            .logError ("Error checking for new listings: " ++ e)]⟩ := by
  simp [diffStep] at hne
  simp [check_for_new_listings, hw, hl, hc, hg, baseEvents, diffStep,
    List.length_pos.mpr hne]

/-- Login succeeds but reports `loggedIn: false`: a warning is logged and the
whole apply/notify loop is skipped, with the set already updated. -/
theorem check_eq_login_false (env : CycleEnv) (K : Finset String)
    (cs : List String) (L : List Listing) (hsh : String)
    (hw : env.warmup = .ok ()) (hl : env.listings = .ok L)
    (hne : (diffStep K L).1 ≠ []) (hc : env.loginConfig = .ok hsh)
    (hg : env.login = .ok false) :
    check_for_new_listings env K cs =
      ⟨(diffStep K L).2, (diffStep K L).1, [],
        baseEvents K L ++
          [.reqLoginConfig, .reqLogin, .logWarning "Could not login"]⟩ := by
  simp [diffStep] at hne
  simp [check_for_new_listings, hw, hl, hc, hg, baseEvents, diffStep,
    List.length_pos.mpr hne]

/-- Login reports `loggedIn: true`: every new listing goes through the
apply/notify loop in order. -/
theorem check_eq_success (env : CycleEnv) (K : Finset String)
    (cs : List String) (L : List Listing) (hsh : String)
    (hw : env.warmup = .ok ()) (hl : env.listings = .ok L)
    (hne : (diffStep K L).1 ≠ []) (hc : env.loginConfig = .ok hsh)
    (hg : env.login = .ok true) :
    check_for_new_listings env K cs =
      ⟨(diffStep K L).2, (diffStep K L).1,
        ((diffStep K L).1.map (processListing env cs)).map (·.1),
        baseEvents K L ++ [.reqLoginConfig, .reqLogin] ++
          (((diffStep K L).1.map (processListing env cs)).map (·.2)).flatten⟩ := by
  simp [diffStep] at hne
  simp [check_for_new_listings, hw, hl, hc, hg, baseEvents, diffStep,
    List.length_pos.mpr hne]

/-! ### Concrete sample data used by witnesses and counterexamples -/

def lA : Listing := ⟨"A", "a", 500⟩

def lB : Listing := ⟨"B", "b", 600⟩

/-- A second listing carrying the same ID as `lA` but different fields. -/
def lA2 : Listing := ⟨"A", "z", 700⟩

def applyEnvAdd : ApplyEnv := ⟨.ok ⟨"add", "u"⟩, .ok "h", .ok true⟩

def applyEnvBoom : ApplyEnv := ⟨.error "boom", .ok "h", .ok true⟩

def applyEnvOther : ApplyEnv := ⟨.ok ⟨"delete", "u"⟩, .ok "h", .ok true⟩

def envOkTrue : CycleEnv :=
  ⟨.ok (), .ok [lA, lB], .ok "h", .ok true,
    fun i => if i = "A" then applyEnvBoom else applyEnvAdd, fun _ => .ok ()⟩

def envLoginFalse : CycleEnv :=
  ⟨.ok (), .ok [lA], .ok "h", .ok false, fun _ => applyEnvAdd, fun _ => .ok ()⟩

def envWarmupDown : CycleEnv :=
  ⟨.error "conn reset", .ok [lA], .ok "h", .ok true, fun _ => applyEnvAdd,
    fun _ => .ok ()⟩

def envLoginDown : CycleEnv :=
  ⟨.ok (), .ok [lA], .ok "h", .error "timeout", fun _ => applyEnvAdd,
    fun _ => .ok ()⟩

/-! ### The claims -/

/-- Claim C1, counterexample: with two fetched listings sharing the ID "A",
none of it known, the diff step keeps only the first occurrence, while the
claim's description ("exactly those fetched listings whose IDs are not in K")
would keep both. -/
theorem C1_counterexample :
    ¬ ((diffStep ∅ [lA, lA2]).1 =
        [lA, lA2].filter (fun l => decide (l.id ∉ (∅ : Finset String))) ∧
      (diffStep ∅ [lA, lA2]).2 =
        (∅ : Finset String) ∪ ([lA, lA2].map Listing.id).toFinset) := by
  decide

/-- Claim C1 (amended with the duplicate-free hypothesis the counterexample
forces): for every known-ID set K and fetched list L whose listing IDs are
pairwise distinct, the diff step of `check_for_new_listings` produces exactly
the fetched listings whose IDs are not in K, in fetch-result order, and leaves
the known-ID set equal to K united with the IDs of L. -/
theorem C1_diff_spec (K : Finset String) (L : List Listing)
    (h : (L.map Listing.id).Nodup) :
    (diffStep K L).1 = L.filter (fun l => decide (l.id ∉ K)) ∧
    (diffStep K L).2 = K ∪ (L.map Listing.id).toFinset := by
  refine ⟨?_, diff_fold_snd L [] K⟩
  rw [diffStep, diff_fold_fst L [] K h, List.nil_append]

theorem C1_diff_spec_witness :
    (([lA, lB].map Listing.id).Nodup) ∧
    ((diffStep {"A"} [lA, lB]).1 =
        [lA, lB].filter (fun l => decide (l.id ∉ ({"A"} : Finset String))) ∧
      (diffStep {"A"} [lA, lB]).2 =
        ({"A"} : Finset String) ∪ ([lA, lB].map Listing.id).toFinset) :=
  ⟨by decide, C1_diff_spec {"A"} [lA, lB] (by decide)⟩

/-- Claim C5: on every execution path of `check_for_new_listings` the returned
known-ID set is a superset of the input set — no ID is ever removed. -/
theorem C5_known_monotone (env : CycleEnv) (K : Finset String)
    (cs : List String) : K ⊆ (check_for_new_listings env K cs).known := by
  have hsub : ∀ L : List Listing, K ⊆ (diffStep K L).2 := fun L => by
    rw [diffStep, diff_fold_snd]
    exact Finset.subset_union_left
  cases hw : env.warmup with
  | error e => rw [check_eq_warmup_err env K cs e hw]
  | ok u =>
      cases u
      cases hl : env.listings with
      | error e => rw [check_eq_listings_err env K cs e hw hl]
      | ok L =>
          by_cases hempty : (diffStep K L).1 = []
          · rw [check_eq_no_new env K cs L hw hl hempty]
            exact hsub L
          · cases hc : env.loginConfig with
            | error e =>
                rw [check_eq_loginconfig_err env K cs L e hw hl hempty hc]
                exact hsub L
            | ok hsh =>
                cases hg : env.login with
                | error e =>
                    rw [check_eq_login_err env K cs L hsh e hw hl hempty hc hg]
                    exact hsub L
                | ok b =>
                    cases b
                    · rw [check_eq_login_false env K cs L hsh hw hl hempty hc hg]
                      exact hsub L
                    · rw [check_eq_success env K cs L hsh hw hl hempty hc hg]
                      exact hsub L

/-- Claim C9: running the diff step a second time with the same fetched list,
starting from the updated set, yields an empty new-listing list and leaves the
known-ID set unchanged. -/
theorem C9_diff_idempotent (K : Finset String) (L : List Listing) :
    diffStep (diffStep K L).2 L = ([], (diffStep K L).2) :=
  diff_fold_skip L [] (diffStep K L).2 (fun l hl => diff_mem_snd K L l hl)

/-- Claim C10: when the diff produces zero new listings, no login request is
issued, and consequently no apply and no notification occurs in the cycle. -/
theorem C10_no_login_without_new (env : CycleEnv) (K : Finset String)
    (cs : List String) (L : List Listing) (hw : env.warmup = .ok ())
    (hl : env.listings = .ok L) (hempty : (diffStep K L).1 = []) :
    Event.reqLoginConfig ∉ (check_for_new_listings env K cs).events ∧
    Event.reqLogin ∉ (check_for_new_listings env K cs).events ∧
    (∀ i, Event.reqDetail i ∉ (check_for_new_listings env K cs).events) ∧
    (check_for_new_listings env K cs).outcomes = [] ∧
    (∀ c m, Event.notifySend c m ∉ (check_for_new_listings env K cs).events) := by
  rw [check_eq_no_new env K cs L hw hl hempty]
  exact ⟨by simp, by simp, fun i => by simp, rfl, fun c m => by simp⟩

theorem C10_no_login_without_new_witness :
    Event.reqLoginConfig ∉
      (check_for_new_listings envOkTrue {"A", "B"} ["c1"]).events ∧
    Event.reqLogin ∉ (check_for_new_listings envOkTrue {"A", "B"} ["c1"]).events ∧
    (∀ i, Event.reqDetail i ∉
      (check_for_new_listings envOkTrue {"A", "B"} ["c1"]).events) ∧
    (check_for_new_listings envOkTrue {"A", "B"} ["c1"]).outcomes = [] ∧
    (∀ c m, Event.notifySend c m ∉
      (check_for_new_listings envOkTrue {"A", "B"} ["c1"]).events) :=
  C10_no_login_without_new envOkTrue {"A", "B"} ["c1"] [lA, lB] rfl rfl
    (by decide)

/-- Claim C8: the notifier builds one message whose text contains the
listing's ID, the detail URL (listings base URL ++ "/details/" ++ urlKey) and
the totalRent value, and attempts exactly one send of that message to each
configured recipient, in order. -/
theorem C8_notifier_message (tg : String → Except String Unit) (l : Listing)
    (cs : List String) :
    (send_telegram_notification tg l cs).filterMap Event.sendOf =
      cs.map (fun c => (c, message l)) ∧
    l.id.data <:+: (message l).data ∧
    (detailUrl l).data <:+: (message l).data ∧
    (toString l.totalRent).data <:+: (message l).data := by
  refine ⟨sends_send_telegram tg l cs, ?_, ?_, ?_⟩
  · exact ⟨("New listing available at " ++ detailUrl l ++ "\n" ++ "ID: ").data,
      ("\n" ++ "Price: " ++ toString l.totalRent).data, by simp [message]⟩
  · exact ⟨("New listing available at ").data,
      ("\n" ++ "ID: " ++ l.id ++ "\n" ++ "Price: " ++ toString l.totalRent).data,
      by simp [message, detailUrl]⟩
  · exact ⟨("New listing available at " ++ detailUrl l ++ "\n" ++ "ID: " ++
        l.id ++ "\n" ++ "Price: ").data, ([] : List Char), by simp [message]⟩

/-- Claim C2: the Applier's outcome mapping — `action == "add"` with
`success: true` is Applied, with `success: false` is Failed, and any other
action value is AlreadyApplied with no network request issued after the
detail request. -/
theorem C2_applier_outcomes (env : ApplyEnv) (l : Listing) (rd : ReactionData)
    (hd : env.detail = .ok rd) :
    (rd.action = "add" →
      ∀ (hsh : String) (b : Bool), env.reactionHash = .ok hsh →
        env.react = .ok b →
        (apply_for_new_listing env l).1 =
          (if b then Outcome.Applied else Outcome.Failed)) ∧
    (rd.action ≠ "add" →
      (apply_for_new_listing env l).1 = Outcome.AlreadyApplied ∧
      (apply_for_new_listing env l).2.filter Event.isNetReq =
        [Event.reqDetail l.id]) := by
  constructor
  · intro ha hsh b hh hb
    cases b <;> simp [apply_for_new_listing, hd, ha, hh, hb]
  · intro ha
    simp [apply_for_new_listing, hd, ha, Event.isNetReq]

theorem C2_applier_outcomes_witness :
    applyEnvOther.detail = Except.ok (ReactionData.mk "delete" "u") ∧
    (((ReactionData.mk "delete" "u").action = "add" →
      ∀ (hsh : String) (b : Bool), applyEnvOther.reactionHash = .ok hsh →
        applyEnvOther.react = .ok b →
        (apply_for_new_listing applyEnvOther lA).1 =
          (if b then Outcome.Applied else Outcome.Failed)) ∧
    ((ReactionData.mk "delete" "u").action ≠ "add" →
      (apply_for_new_listing applyEnvOther lA).1 = Outcome.AlreadyApplied ∧
      (apply_for_new_listing applyEnvOther lA).2.filter Event.isNetReq =
        [Event.reqDetail lA.id])) :=
  ⟨rfl, C2_applier_outcomes applyEnvOther lA (ReactionData.mk "delete" "u") rfl⟩

/-- Claim C4: when new listings were found but the login response reports
`loggedIn: false`, the returned known-ID set still contains the fetched IDs,
and zero apply requests and zero notification sends occur in the cycle. -/
theorem C4_login_false_skips_all (env : CycleEnv) (K : Finset String)
    (cs : List String) (L : List Listing) (hsh : String)
    (hw : env.warmup = .ok ()) (hl : env.listings = .ok L)
    (hne : (diffStep K L).1 ≠ []) (hc : env.loginConfig = .ok hsh)
    (hg : env.login = .ok false) :
    (∀ l ∈ L, l.id ∈ (check_for_new_listings env K cs).known) ∧
    (check_for_new_listings env K cs).outcomes = [] ∧
    (∀ i, Event.reqDetail i ∉ (check_for_new_listings env K cs).events) ∧
    (∀ c m, Event.notifySend c m ∉ (check_for_new_listings env K cs).events) := by
  rw [check_eq_login_false env K cs L hsh hw hl hne hc hg]
  exact ⟨fun l hl' => diff_mem_snd K L l hl', rfl,
    fun i => by simp [baseEvents], fun c m => by simp [baseEvents]⟩

theorem C4_login_false_skips_all_witness :
    (∀ l ∈ [lA], l.id ∈ (check_for_new_listings envLoginFalse ∅ ["c1"]).known) ∧
    (check_for_new_listings envLoginFalse ∅ ["c1"]).outcomes = [] ∧
    (∀ i, Event.reqDetail i ∉
      (check_for_new_listings envLoginFalse ∅ ["c1"]).events) ∧
    (∀ c m, Event.notifySend c m ∉
      (check_for_new_listings envLoginFalse ∅ ["c1"]).events) :=
  C4_login_false_skips_all envLoginFalse ∅ ["c1"] [lA] "h" rfl rfl (by decide)
    rfl rfl

/-- Claim C6: when the warm-up or listings request fails, the cycle aborts
with the error logged, the known set unchanged, and no login, apply or
notification activity. -/
theorem C6_fetch_error_aborts (env : CycleEnv) (K : Finset String)
    (cs : List String) (e : String)
    (h : env.warmup = .error e ∨ (env.warmup = .ok () ∧ env.listings = .error e)) :
    (check_for_new_listings env K cs).known = K ∧
    Event.logError ("Error checking for new listings: " ++ e) ∈
      (check_for_new_listings env K cs).events ∧
    Event.reqLoginConfig ∉ (check_for_new_listings env K cs).events ∧
    Event.reqLogin ∉ (check_for_new_listings env K cs).events ∧
    (∀ i, Event.reqDetail i ∉ (check_for_new_listings env K cs).events) ∧
    (check_for_new_listings env K cs).outcomes = [] ∧
    (∀ c m, Event.notifySend c m ∉ (check_for_new_listings env K cs).events) := by
  rcases h with hw | ⟨hw, hl⟩
  · rw [check_eq_warmup_err env K cs e hw]
    exact ⟨rfl, by simp, by simp, by simp, fun i => by simp, rfl,
      fun c m => by simp⟩
  · rw [check_eq_listings_err env K cs e hw hl]
    exact ⟨rfl, by simp, by simp, by simp, fun i => by simp, rfl,
      fun c m => by simp⟩

theorem C6_fetch_error_aborts_witness :
    (check_for_new_listings envWarmupDown {"A"} ["c1"]).known = {"A"} ∧
    Event.logError ("Error checking for new listings: " ++ "conn reset") ∈
      (check_for_new_listings envWarmupDown {"A"} ["c1"]).events ∧
    Event.reqLoginConfig ∉
      (check_for_new_listings envWarmupDown {"A"} ["c1"]).events ∧
    Event.reqLogin ∉ (check_for_new_listings envWarmupDown {"A"} ["c1"]).events ∧
    (∀ i, Event.reqDetail i ∉
      (check_for_new_listings envWarmupDown {"A"} ["c1"]).events) ∧
    (check_for_new_listings envWarmupDown {"A"} ["c1"]).outcomes = [] ∧
    (∀ c m, Event.notifySend c m ∉
      (check_for_new_listings envWarmupDown {"A"} ["c1"]).events) :=
  C6_fetch_error_aborts envWarmupDown {"A"} ["c1"] "conn reset" (Or.inl rfl)

/-- Claim C7: a network error on the login-configuration GET or the login POST
after new listings were found still returns a known-ID set containing the new
IDs, with no apply and no notification performed; and because the set was
already updated, a later cycle fetching the same list finds zero new listings,
so those listings are never applied for or notified. -/
theorem C7_abort_not_atomic (env : CycleEnv) (K : Finset String)
    (cs : List String) (L : List Listing) (e : String)
    (hw : env.warmup = .ok ()) (hl : env.listings = .ok L)
    (hne : (diffStep K L).1 ≠ [])
    (h : env.loginConfig = .error e ∨
      ((∃ hsh, env.loginConfig = .ok hsh) ∧ env.login = .error e)) :
    (∀ l ∈ L, l.id ∈ (check_for_new_listings env K cs).known) ∧
    (check_for_new_listings env K cs).outcomes = [] ∧
    (∀ i, Event.reqDetail i ∉ (check_for_new_listings env K cs).events) ∧
    (∀ c m, Event.notifySend c m ∉ (check_for_new_listings env K cs).events) ∧
    (∀ (env' : CycleEnv) (cs' : List String), env'.warmup = .ok () →
      env'.listings = .ok L →
      (check_for_new_listings env'
        (check_for_new_listings env K cs).known cs').newListings = []) := by
  have hmem : ∀ l ∈ L, l.id ∈ (diffStep K L).2 :=
    fun l hl' => diff_mem_snd K L l hl'
  have hskip : (diffStep (diffStep K L).2 L).1 = [] := by
    rw [diffStep, diff_fold_skip L [] _ hmem]
  rcases h with hc | ⟨⟨hsh, hc⟩, hg⟩
  · rw [check_eq_loginconfig_err env K cs L e hw hl hne hc]
    refine ⟨hmem, rfl, fun i => by simp [baseEvents],
      fun c m => by simp [baseEvents], ?_⟩
    intro env' cs' hw' hl'
    rw [check_eq_no_new env' _ cs' L hw' hl' hskip]
  · rw [check_eq_login_err env K cs L hsh e hw hl hne hc hg]
    refine ⟨hmem, rfl, fun i => by simp [baseEvents],
      fun c m => by simp [baseEvents], ?_⟩
    intro env' cs' hw' hl'
    rw [check_eq_no_new env' _ cs' L hw' hl' hskip]

theorem C7_abort_not_atomic_witness :
    (∀ l ∈ [lA], l.id ∈ (check_for_new_listings envLoginDown ∅ ["c1"]).known) ∧
    (check_for_new_listings envLoginDown ∅ ["c1"]).outcomes = [] ∧
    (∀ i, Event.reqDetail i ∉
      (check_for_new_listings envLoginDown ∅ ["c1"]).events) ∧
    (∀ c m, Event.notifySend c m ∉
      (check_for_new_listings envLoginDown ∅ ["c1"]).events) ∧
    (∀ (env' : CycleEnv) (cs' : List String), env'.warmup = .ok () →
      env'.listings = .ok [lA] →
      (check_for_new_listings env'
        (check_for_new_listings envLoginDown ∅ ["c1"]).known cs').newListings = []) :=
  C7_abort_not_atomic envLoginDown ∅ ["c1"] [lA] "timeout" rfl rfl (by decide)
    (Or.inr ⟨⟨"h", rfl⟩, rfl⟩)

/-- Claim C3: in a cycle where login succeeded, every new listing is processed
through apply and notify, each listing's outcome comes from its own apply
environment, and a request-level error while applying for one listing yields
a Failed outcome for that listing with the error logged — without stopping
the processing of the other listings. -/
theorem C3_listing_isolation (env : CycleEnv) (K : Finset String)
    (cs : List String) (L : List Listing) (hsh : String)
    (hw : env.warmup = .ok ()) (hl : env.listings = .ok L)
    (hc : env.loginConfig = .ok hsh) (hg : env.login = .ok true) :
    (check_for_new_listings env K cs).outcomes =
      (check_for_new_listings env K cs).newListings.map
        (fun l => (l.id, (apply_for_new_listing (env.applyEnv l.id) l).1)) ∧
    (∀ l ∈ (check_for_new_listings env K cs).newListings, ∀ c ∈ cs,
      Event.notifySend c (message l) ∈
        (check_for_new_listings env K cs).events) ∧
    (∀ l ∈ (check_for_new_listings env K cs).newListings, ∀ e,
      (env.applyEnv l.id).raises e →
        (l.id, Outcome.Failed) ∈ (check_for_new_listings env K cs).outcomes ∧
        Event.logError ("Error applying for listing " ++ l.id ++ ": " ++ e) ∈
          (check_for_new_listings env K cs).events) := by
  by_cases hempty : (diffStep K L).1 = []
  · rw [check_eq_no_new env K cs L hw hl hempty]
    exact ⟨rfl, fun l hl' => absurd hl' (by simp),
      fun l hl' => absurd hl' (by simp)⟩
  · rw [check_eq_success env K cs L hsh hw hl hempty hc hg]
    refine ⟨?_, ?_, ?_⟩
    · simp [List.map_map, Function.comp, processListing]
    · intro l hl' c hc'
      have hmem2 : (processListing env cs l).2 ∈
          ((diffStep K L).1.map (processListing env cs)).map (·.2) :=
        List.mem_map_of_mem _ (List.mem_map_of_mem _ hl')
      have hin : Event.notifySend c (message l) ∈ (processListing env cs l).2 := by
        simp only [processListing]
        exact List.mem_append.mpr (Or.inr (mem_send_telegram env.tg l cs c hc'))
      exact List.mem_append.mpr (Or.inr (List.mem_flatten.mpr ⟨_, hmem2, hin⟩))
    · intro l hl' e he
      obtain ⟨hfail, hlog⟩ := apply_raises_failed (env.applyEnv l.id) l e he
      constructor
      · have h1 : (processListing env cs l).1 = (l.id, Outcome.Failed) := by
          simp [processListing, hfail]
        exact h1 ▸ List.mem_map_of_mem _ (List.mem_map_of_mem _ hl')
      · have hmem2 : (processListing env cs l).2 ∈
            ((diffStep K L).1.map (processListing env cs)).map (·.2) :=
          List.mem_map_of_mem _ (List.mem_map_of_mem _ hl')
        have hin : Event.logError ("Error applying for listing " ++ l.id ++
            ": " ++ e) ∈ (processListing env cs l).2 := by
          simp only [processListing]
          exact List.mem_append.mpr (Or.inl hlog)
        exact List.mem_append.mpr (Or.inr (List.mem_flatten.mpr ⟨_, hmem2, hin⟩))

theorem C3_listing_isolation_witness :
    (check_for_new_listings envOkTrue ∅ ["c1"]).outcomes =
      (check_for_new_listings envOkTrue ∅ ["c1"]).newListings.map
        (fun l => (l.id, (apply_for_new_listing (envOkTrue.applyEnv l.id) l).1)) ∧
    (∀ l ∈ (check_for_new_listings envOkTrue ∅ ["c1"]).newListings, ∀ c ∈ ["c1"],
      Event.notifySend c (message l) ∈
        (check_for_new_listings envOkTrue ∅ ["c1"]).events) ∧
    (∀ l ∈ (check_for_new_listings envOkTrue ∅ ["c1"]).newListings, ∀ e,
      (envOkTrue.applyEnv l.id).raises e →
        (l.id, Outcome.Failed) ∈
          (check_for_new_listings envOkTrue ∅ ["c1"]).outcomes ∧
        Event.logError ("Error applying for listing " ++ l.id ++ ": " ++ e) ∈
          (check_for_new_listings envOkTrue ∅ ["c1"]).events) :=
  C3_listing_isolation envOkTrue ∅ ["c1"] [lA, lB] "h" rfl rfl rfl rfl

end KvK
